import Mathlib

/-!
Verification development for the forecasting core of `chainintel-mvp`
(`backend/models/forecaster.py`, class `NetworkForecaster`).

Modelling conventions:
* Calendar dates (`pandas` datestamps at daily frequency) are day numbers in `ℤ`;
  the frequency step of `freq =D` is `+ 1`.
* Numeric values (`float` / `int64` columns) are exact rationals `ℚ`.  numpy
  division by zero does not raise: it yields `inf`, `-inf` or `nan`; this is
  modelled by the type `NpVal` below.
* Functions that in the Python source guard with `return {}` or wrap their whole
  body in `try/except Exception: return {}` are total here and return an
  `Option`; `none` models the normal return of the empty dict `{}`.  No
  exception ever escapes those functions in the source.
* The numeric outputs of the fitted Prophet model (the `yhat`, `yhat_lower`,
  `yhat_upper` and `trend` columns produced by Stan optimisation and Monte
  Carlo simulation in the external `prophet` library) are abstracted as
  arbitrary functions of the date (`PredictFun`); the *structure* of
  `Prophet.predict` — one output row per input row, in input order — and of
  `Prophet.make_future_dataframe` are embedded faithfully.
* `pandas.sort_values` uses an unstable quicksort, so the order of rows with
  equal date keys is unspecified in the source; we fix insertion sort.  All
  stated properties are independent of the order among equal keys.
-/

namespace ChainIntel

/-- One element of the `historical_data` list handed to the forecaster:
a dict with a `date` and a `total_vehicles` entry. -/
structure HistRecord where
  date : ℤ
  total_vehicles : ℚ
deriving Repr, DecidableEq

/-- A row of the prepared dataframe: the `ds` (date) and `y` (value) columns. -/
abbrev Series := List (ℤ × ℚ)

/-- The ordering on rows used by `sort_values('ds')`: compare the `ds` key. -/
def dsLe (a b : ℤ × ℚ) : Prop := a.1 ≤ b.1

instance : DecidableRel dsLe := fun a b => inferInstanceAs (Decidable (a.1 ≤ b.1))

instance : IsTotal (ℤ × ℚ) dsLe := ⟨fun a b => Int.le_total a.1 b.1⟩

instance : IsTrans (ℤ × ℚ) dsLe := ⟨fun _ _ _ h h' => le_trans h h'⟩

/-- The body of `NetworkForecaster.prepare_data` once the dataframe has been
built (a nonempty record list): the `(ds, y)` frame from the
`date` / `total_vehicles` entries, sorted by `ds`
(`df_prophet.sort_values('ds').reset_index(drop=True)`).  The source performs
no deduplication and no value transformation.  The failure path of
`prepare_data` — raising on an empty input — is `prepare_data_checked`
below. -/
def prepare_data (historical_data : List HistRecord) : Series :=
  List.insertionSort dsLe (historical_data.map fun r => (r.date, r.total_vehicles))

/-- `NetworkForecaster.prepare_data` with its failure path: on an empty
record list, `pd.DataFrame([])` has no columns, so `df['date']`
(forecaster.py:41) raises `KeyError` before any frame is built; on a
nonempty list every record supplies the `date` and `total_vehicles` keys and
the sorted frame is returned. -/
def prepare_data_checked (historical_data : List HistRecord) :
    Except Unit Series :=
  match historical_data with
  | [] => .error ()
  | _ :: _ => .ok (prepare_data historical_data)

/-- A `Prophet` model instance.  `history` is `some df` once `fit` has stored
the training dataframe in the instance, `none` for a freshly constructed,
unfitted instance. -/
structure ProphetModel where
  history : Option Series
deriving Repr, DecidableEq

/-- `Prophet.fit`: raises (`.error`) when the dataframe has fewer than 2
non-null rows (`ValueError: Dataframe has less than 2 non-NaN rows`), the
deterministic failure mode of `fit`; otherwise stores the history in the
instance. -/
def Prophet.fit (df : Series) : Except Unit ProphetModel :=
  if df.length < 2 then .error () else .ok ⟨some df⟩

/-- One row of the dataframe returned by `Prophet.predict`: the columns the
forecaster reads (`ds`, `yhat`, `yhat_lower`, `yhat_upper`, `trend`). -/
structure ForecastRow where
  ds : ℤ
  yhat : ℚ
  yhat_lower : ℚ
  yhat_upper : ℚ
  trend : ℚ
deriving Repr, DecidableEq

/-- The numeric content of the fitted model as used by `Prophet.predict`:
the value each output column takes at a given date.  These numbers come from
Stan optimisation and Monte Carlo simulation inside the external `prophet`
library and are treated as arbitrary. -/
structure PredictFun where
  yhat : ℤ → ℚ
  yhat_lower : ℤ → ℚ
  yhat_upper : ℤ → ℚ
  trend : ℤ → ℚ

/-- Structural embedding of `Prophet.predict`: one output row per input row,
in input order, with `ds` copied from the input frame. -/
def Prophet.predict (f : PredictFun) (frame : List ℤ) : List ForecastRow :=
  frame.map fun d => ⟨d, f.yhat d, f.yhat_lower d, f.yhat_upper d, f.trend d⟩

/-- The mutable attributes of the singleton `NetworkForecaster` instance:
`self.model`, `self.training_data`, `self.forecast_result`. -/
structure ForecasterState where
  model : Option ProphetModel
  training_data : Option Series
  forecast_result : Option (List ForecastRow)
deriving Repr, DecidableEq

/-- `NetworkForecaster()` — all three attributes start as `None`. -/
def initialState : ForecasterState := ⟨none, none, none⟩

/-- `NetworkForecaster.train_model`: inside one `try`, assigns
`self.training_data = self.prepare_data(...)`, then
`self.model = Prophet(...)` (a fresh instance), then `self.model.fit(...)`.
Returns `True` on success.  Failure points, in source order: if
`prepare_data` itself raises (empty input), the `except` returns `False`
with *neither* attribute assigned; if `fit` raises, the `except` returns
`False` but both assignments have already happened — `training_data` holds
the newly prepared series and `model` holds the new, unfitted Prophet
instance. -/
def train_model (st : ForecasterState) (historical_data : List HistRecord) :
    Bool × ForecasterState :=
  match prepare_data_checked historical_data with
  | .error _ => (false, st)
  | .ok td =>
    match Prophet.fit td with
    | .ok m => (true, { st with training_data := some td, model := some m })
    | .error _ =>
      (false, { st with training_data := some td, model := some ⟨none⟩ })

/-! ### numpy arithmetic with non-finite values -/

/-- A numpy floating-point value: finite (an exact rational here), `inf`,
`-inf`, or `nan`. -/
inductive NpVal where
  | fin (q : ℚ)
  | posInf
  | negInf
  | nan
deriving Repr, DecidableEq

/-- Whether a numpy value is finite. -/
def NpVal.isFinite : NpVal → Bool
  | .fin _ => true
  | _ => false

/-- numpy division of two finite values: division by zero yields `±inf`
(or `nan` for `0/0`) with a `RuntimeWarning`, never an exception. -/
def npDivFin (a b : ℚ) : NpVal :=
  if b = 0 then
    if a = 0 then .nan else if 0 < a then .posInf else .negInf
  else .fin (a / b)

/-- IEEE addition on numpy values. -/
def npAdd : NpVal → NpVal → NpVal
  | .nan, _ => .nan
  | _, .nan => .nan
  | .posInf, .negInf => .nan
  | .negInf, .posInf => .nan
  | .posInf, _ => .posInf
  | _, .posInf => .posInf
  | .negInf, _ => .negInf
  | _, .negInf => .negInf
  | .fin a, .fin b => .fin (a + b)

/-- IEEE absolute value (`np.abs`). -/
def npAbs : NpVal → NpVal
  | .fin q => .fin |q|
  | .posInf => .posInf
  | .negInf => .posInf
  | .nan => .nan

/-- `np.sum` semantics: fold of IEEE addition starting from `0`. -/
def npSum (xs : List NpVal) : NpVal := xs.foldl npAdd (.fin 0)

/-- Division of a numpy value by a positive array length (only ever applied
with a nonzero length in the embedded code paths). -/
def npDivNat (v : NpVal) (n : ℕ) : NpVal :=
  match v with
  | .fin q => .fin (q / n)
  | .posInf => .posInf
  | .negInf => .negInf
  | .nan => .nan

/-- `np.mean`: `nan` on an empty array (with a warning), otherwise sum divided
by length under IEEE semantics. -/
def npMean (xs : List NpVal) : NpVal :=
  match xs with
  | [] => .nan
  | _ => npDivNat (npSum xs) xs.length

/-- Multiplication of a numpy value by the positive constant `100`. -/
def npMul100 : NpVal → NpVal
  | .fin q => .fin (q * 100)
  | .posInf => .posInf
  | .negInf => .negInf
  | .nan => .nan

/-- Python banker's rounding of a rational to the nearest integer
(ties to even), the behaviour of `round` on floats. -/
def roundHalfEven (q : ℚ) : ℤ :=
  let f := ⌊q⌋
  let r := q - f
  if r < 1/2 then f
  else if 1/2 < r then f + 1
  else if f % 2 = 0 then f else f + 1

/-- Python `round(x, 2)` on a finite value, idealised to exact decimals. -/
def round2 (q : ℚ) : ℚ := (roundHalfEven (q * 100) : ℚ) / 100

/-- Python `round(x, 2)` on a numpy value: `inf` and `nan` pass through. -/
def round2Np : NpVal → NpVal
  | .fin q => .fin (round2 q)
  | .posInf => .posInf
  | .negInf => .negInf
  | .nan => .nan

/-- Python `int()` on a float: truncation toward zero. -/
def pyInt (q : ℚ) : ℤ := if q < 0 then ⌈q⌉ else ⌊q⌋

/-! ### Forecast generation -/

/-- `pandas.Series.max()` over the `ds` column; only ever used on nonempty
series in the embedded code paths (`0` is an arbitrary value for `[]`). -/
def dsMax (l : List ℤ) : ℤ := l.foldl max (l.headD 0)

/-- Prophet's `self.history_dates`: the distinct `ds` values of the fitted
dataframe, sorted ascending (`pd.Series(df['ds'].unique()).sort_values()`). -/
def uniqueSorted (l : List ℤ) : List ℤ :=
  (List.insertionSort (· ≤ ·) l).dedup

/-- `Prophet.make_future_dataframe(periods, freq='D')` with history included:
the sorted distinct history dates followed by the `periods` consecutive days
after the last history date. -/
def make_future_dataframe (histDates : List ℤ) (periods : ℕ) : List ℤ :=
  uniqueSorted histDates ++
    (List.range periods).map fun i : ℕ => dsMax histDates + 1 + (i : ℤ)

/-- The full forecast dataframe computed in `generate_forecast`
(`self.model.predict(self.model.make_future_dataframe(days_ahead, 'D'))`). -/
def forecastFrame (hist : Series) (f : PredictFun) (days_ahead : ℕ) :
    List ForecastRow :=
  Prophet.predict f (make_future_dataframe (hist.map (·.1)) days_ahead)

/-- One element of the `predictions` list in the forecast result dict. -/
structure Prediction where
  date : ℤ
  predicted_vehicles : ℤ
  lower_bound : ℤ
  upper_bound : ℤ
  confidence : ℚ
deriving Repr, DecidableEq

/-- One entry of `growth_metrics` (`30_day`, `90_day`, `180_day`). -/
structure GrowthEntry where
  predicted_vehicles : ℤ
  growth_from_current : ℤ
  growth_percentage : NpVal
deriving Repr, DecidableEq

/-- The non-constant fields of the dict returned by `generate_forecast`
(the `model_type`, `confidence_level` and wall-clock `timestamp` fields are
constants or real time and are omitted). -/
structure ForecastResultDict where
  forecast_horizon : ℕ
  current_vehicles : ℤ
  current_date : ℤ
  predictions : List Prediction
  growth_30 : GrowthEntry
  growth_90 : GrowthEntry
  growth_180 : GrowthEntry
  avg_daily_growth : ℤ
deriving Repr, DecidableEq

/-- `DataFrame.iloc[i]` on the filtered future frame; only applied at indices
below the length (guarded by the nonemptiness check in `generate_forecast`). -/
def pyIloc (l : List ForecastRow) (i : ℕ) : ForecastRow :=
  l.getD i ⟨0, 0, 0, 0, 0⟩

/-- One milestone entry of `growth_metrics`: `int(yhat)`,
`int(yhat - last_historical_value)`, and
`round(((yhat - last_historical_value) / last_historical_value) * 100, 2)`
— the division is numpy division, so a zero `last_historical_value` yields a
non-finite percentage, not an exception. -/
def mkGrowthEntry (row : ForecastRow) (lastValue : ℚ) : GrowthEntry :=
  { predicted_vehicles := pyInt row.yhat
    growth_from_current := pyInt (row.yhat - lastValue)
    growth_percentage := round2Np (npMul100 (npDivFin (row.yhat - lastValue) lastValue)) }

/-- `NetworkForecaster.generate_forecast(days_ahead)`.

Control flow of the source, in order: the `if not self.model: return {}`
guard; `make_future_dataframe` (raises on an unfitted instance, caught by the
blanket `except` → `{}`); `predict`; the assignment
`self.forecast_result = forecast` (this happens *before* the remaining steps,
so later failures still leave the new frame stored); reading
`self.training_data['ds'].max()` and `['y'].iloc[-1]` (`iloc[-1]` raises on an
empty frame → `{}`); filtering the rows after the last historical date; the
milestone lookups `future_forecast.iloc[...]` (raise when the filtered frame
is empty, i.e. `days_ahead = 0` → `{}`); assembling the result dict. -/
def generate_forecast (st : ForecasterState) (f : PredictFun) (days_ahead : ℕ) :
    Option ForecastResultDict × ForecasterState :=
  match st.model with
  | none => (none, st)
  | some m =>
    match m.history with
    | none => (none, st)
    | some hist =>
      let frame := forecastFrame hist f days_ahead
      let st' := { st with forecast_result := some frame }
      match st.training_data with
      | none => (none, st')
      | some td =>
        match td.getLast? with
        | none => (none, st')
        | some lastRow =>
          let last_historical_date := dsMax (td.map (·.1))
          let last_historical_value := lastRow.2
          let future_forecast := frame.filter fun r => last_historical_date < r.ds
          if future_forecast.isEmpty then (none, st')
          else
            let n := future_forecast.length
            let predictions : List Prediction := future_forecast.map fun r =>
              ⟨r.ds, pyInt r.yhat, pyInt r.yhat_lower, pyInt r.yhat_upper, 9/10⟩
            let end_30_days := pyIloc future_forecast (min 29 (n - 1))
            let end_90_days := pyIloc future_forecast (min 89 (n - 1))
            let end_180_days :=
              if 180 ≤ n then pyIloc future_forecast 179 else pyIloc future_forecast (n - 1)
            (some
              { forecast_horizon := days_ahead
                current_vehicles := pyInt last_historical_value
                current_date := last_historical_date
                predictions := predictions
                growth_30 := mkGrowthEntry end_30_days last_historical_value
                growth_90 := mkGrowthEntry end_90_days last_historical_value
                growth_180 := mkGrowthEntry end_180_days last_historical_value
                avg_daily_growth := pyInt ((end_90_days.yhat - last_historical_value) / 90) },
              st')

/-! ### Validation -/

/-- Python `self.training_data[:-test_size]`: empty for `test_size = 0`
(`[:-0]` is `[:0]`) and for `test_size ≥ len`; otherwise the first
`len - test_size` rows. -/
def trainSlice (td : Series) (test_size : ℕ) : Series :=
  if test_size = 0 then [] else td.take (td.length - test_size)

/-- Python `self.training_data[-test_size:]`: the whole frame for
`test_size = 0` (`[-0:]` is `[0:]`) and for `test_size ≥ len`; otherwise the
last `test_size` rows. -/
def testSlice (td : Series) (test_size : ℕ) : Series :=
  if test_size = 0 then td else td.drop (td.length - test_size)

/-- Line 222 of the source:
`np.mean(np.abs((y_true - y_pred) / y_true)) * 100`, then `round(mape, 2)`.
There is no guard on zero entries of `y_true`: numpy division by zero yields
`inf`/`nan`, which propagate through the mean. -/
def computeMape (y_true y_pred : List ℚ) : NpVal :=
  round2Np (npMul100 (npMean
    (List.zipWith (fun t p => npAbs (npDivFin (t - p) t)) y_true y_pred)))

/-- The mean of a list of rationals (`sklearn` metrics on nonempty inputs). -/
def meanQ (xs : List ℚ) : ℚ := xs.sum / xs.length

/-- The dict returned by `validate_model`.  The source reports
`rmse = np.sqrt(mean_squared_error(...))`; we record the mean squared error
`rmse_sq` (no claim concerns the square root, which is irrational). -/
structure ValidationMetrics where
  mae : ℚ
  rmse_sq : ℚ
  mape : NpVal
  test_size : ℕ
deriving Repr, DecidableEq

/-- `NetworkForecaster.validate_model(test_size)`.

Guard: `if not self.model or self.training_data is None: return {}`.
Inside `try`: split `training_data` into `[:-test_size]` / `[-test_size:]`,
fit a fresh Prophet instance on the training slice (its `fit` raises when the
slice has fewer than 2 rows — caught by the blanket `except` → `{}`), predict
on the test dates, and compute the metrics.  The numeric predictions of the
temporary model are abstracted as `predictFn`. -/
def validate_model (st : ForecasterState) (test_size : ℕ) (predictFn : ℤ → ℚ) :
    Option ValidationMetrics :=
  match st.model, st.training_data with
  | some _, some td =>
    let train_data := trainSlice td test_size
    match Prophet.fit train_data with
    | .error _ => none
    | .ok _ =>
      let test_data := testSlice td test_size
      let y_true := test_data.map (·.2)
      let y_pred := (test_data.map (·.1)).map predictFn
      some
        { mae := round2 (meanQ ((List.zipWith (fun t p => |t - p|) y_true y_pred)))
          rmse_sq := meanQ (List.zipWith (fun t p => (t - p) ^ 2) y_true y_pred)
          mape := computeMape y_true y_pred
          test_size := test_size }
  | _, _ => none

/-! ### Trend analysis -/

/-- `trend['trend'].diff()`: `NaN` (here `none`) in the first row, then the
difference to the previous row. -/
def dailyChanges (xs : List ℚ) : List (Option ℚ) :=
  match xs with
  | [] => []
  | _ :: _ => none :: List.zipWith (fun b a => some (b - a)) xs.tail xs

/-- `pandas.Series.mean()`: skips `NaN` entries; `NaN` (`none`) when no
non-null entry remains. -/
def meanOpt (xs : List (Option ℚ)) : Option ℚ :=
  let v := xs.filterMap id
  if v.isEmpty then none else some (v.sum / v.length)

/-- `DataFrame.tail(n)`: the last `min n len` rows. -/
def tailN (n : ℕ) (xs : List (Option ℚ)) : List (Option ℚ) :=
  xs.drop (xs.length - n)

/-- Python `>` where either side may be `NaN`: any comparison with `NaN` is
`False`. -/
def optGt : Option ℚ → Option ℚ → Bool
  | some a, some b => b < a
  | _, _ => false

/-- `growth_momentum`:
`round((recent/historical - 1) * 100, 2) if historical_trend != 0 else 0`.
Note `NaN != 0` is `True` in Python, so a `NaN` historical mean reaches the
division and produces `NaN`, while a zero historical mean yields `0`. -/
def growthMomentum (recent historical : Option ℚ) : NpVal :=
  match historical with
  | none => .nan
  | some h =>
    if h = 0 then .fin 0
    else
      match recent with
      | none => .nan
      | some r => .fin (round2 ((r / h - 1) * 100))

/-- The dict returned by `get_trend_analysis` (`none` fields model `NaN`). -/
structure TrendAnalysis where
  avg_daily_trend_change : Option ℚ
  recent_30day_trend : Option ℚ
  historical_30day_trend : Option ℚ
  trend_direction : String
  growth_momentum : NpVal
deriving Repr, DecidableEq

/-- The body of `get_trend_analysis` on a stored forecast frame. -/
def trendAnalysisOf (frame : List ForecastRow) : TrendAnalysis :=
  let changes := dailyChanges (frame.map (·.trend))
  let recent_trend := meanOpt (tailN 30 changes)
  let historical_trend := meanOpt (changes.take 30)
  { avg_daily_trend_change := (meanOpt changes).map round2
    recent_30day_trend := recent_trend.map round2
    historical_30day_trend := historical_trend.map round2
    trend_direction := if optGt recent_trend historical_trend then "accelerating" else "decelerating"
    growth_momentum := growthMomentum recent_trend historical_trend }

/-- `NetworkForecaster.get_trend_analysis()`: guard
`if self.forecast_result is None: return {}`, then the analysis over the
stored frame (no step inside the `try` can raise). -/
def get_trend_analysis (st : ForecasterState) : Option TrendAnalysis :=
  (st.forecast_result).map trendAnalysisOf

/-! ### Concrete inputs used in counterexamples and witnesses -/

/-- A predict function with all columns constantly `0`. -/
def zeroPredict : PredictFun := ⟨fun _ => 0, fun _ => 0, fun _ => 0, fun _ => 0⟩

/-- A fitted forecaster over the two-point series `(0, 1), (1, 2)`. -/
def twoPointState : ForecasterState :=
  ⟨some ⟨some [(0, 1), (1, 2)]⟩, some [(0, 1), (1, 2)], none⟩

/-- A fitted forecaster over the three-point series `(0, 4), (1, 6), (2, 0)`
whose last observation is zero-valued. -/
def zeroTailState : ForecasterState :=
  ⟨some ⟨some [(0, 4), (1, 6), (2, 0)]⟩, some [(0, 4), (1, 6), (2, 0)], none⟩

/-- A fitted forecaster over the series `(0, 3), (1, 0)` whose last observed
value is `0`. -/
def zeroLastState : ForecasterState :=
  ⟨some ⟨some [(0, 3), (1, 0)]⟩, some [(0, 3), (1, 0)], none⟩

/-- A predict function with constant columns `yhat = 5`, bounds `4`/`6`. -/
def constFivePredict : PredictFun := ⟨fun _ => 5, fun _ => 4, fun _ => 6, fun _ => 5⟩

/-! ## C1 — `generate_forecast` before `fit` -/

/-- Claim C1 as stated is false: on a forecaster on which `fit` has never
been performed (`self.model is None`) the call does not raise any exception;
it logs and executes `return {}` — a normal return of the empty dict
(modelled `none`), leaving the state untouched.  No `ModelNotFittedError`
class exists anywhere in the repository. -/
theorem generate_forecast_unfitted_returns_empty_dict :
    generate_forecast initialState zeroPredict 180 = (none, initialState) := by
  rfl

/-- C1 (amended): invoking `generate_forecast` on a forecaster whose `model`
attribute is `None` returns the empty dict `{}` normally (no exception, state
unchanged), for every horizon and every would-be prediction function. -/
theorem generate_forecast_unfitted (st : ForecasterState) (f : PredictFun)
    (days_ahead : ℕ) (hm : st.model = none) :
    generate_forecast st f days_ahead = (none, st) := by
  unfold generate_forecast
  rw [hm]

/-- Witness for the amended C1 theorem at the freshly constructed
forecaster. -/
theorem generate_forecast_unfitted_witness :
    initialState.model = none ∧
      generate_forecast initialState zeroPredict 30 = (none, initialState) :=
  ⟨rfl, generate_forecast_unfitted initialState zeroPredict 30 rfl⟩

/-! ## C8 — `prepare_data`: sorting and (no) deduplication -/

/-- Claim C8 as stated is false: `prepare_data` only sorts by date; it never
deduplicates, so two records sharing a date both survive (here date `0`
appears twice in the output). -/
theorem prepare_data_keeps_duplicates :
    (prepare_data [⟨0, 5⟩, ⟨0, 7⟩]).map Prod.fst = [0, 0] := by
  decide

/-- C8 (amended): on every nonempty input, `prepare_data` returns normally
with the `(date, value)` pairs sorted ascending by date, a permutation of
the input — duplicate dates are retained (no deduplication, no
last-write-wins); on the empty input the dataframe construction raises
`KeyError` (`pd.DataFrame([])` has no `date` column), so no series is
returned at all. -/
theorem prepare_data_sorted_perm (records : List HistRecord) :
    (records ≠ [] →
      prepare_data_checked records = .ok (prepare_data records) ∧
        (prepare_data records).Sorted dsLe ∧
        (prepare_data records).Perm
          (records.map fun r => (r.date, r.total_vehicles))) ∧
    (records = [] → prepare_data_checked records = .error ()) := by
  constructor
  · intro hne
    refine ⟨?_, List.sorted_insertionSort dsLe _, List.perm_insertionSort dsLe _⟩
    cases records with
    | nil => exact absurd rfl hne
    | cons a t => rfl
  · intro hnil
    rw [hnil]
    rfl

/-- Witness for the amended C8 theorem at the duplicate-date input. -/
theorem prepare_data_sorted_perm_witness :
    (([⟨0, 5⟩, ⟨0, 7⟩] : List HistRecord) ≠ []) ∧
      (prepare_data_checked [⟨0, 5⟩, ⟨0, 7⟩] =
          .ok (prepare_data [⟨0, 5⟩, ⟨0, 7⟩]) ∧
        (prepare_data [⟨0, 5⟩, ⟨0, 7⟩]).Sorted dsLe ∧
        (prepare_data [⟨0, 5⟩, ⟨0, 7⟩]).Perm
          (([⟨0, 5⟩, ⟨0, 7⟩] : List HistRecord).map fun r =>
            (r.date, r.total_vehicles))) :=
  ⟨by decide, (prepare_data_sorted_perm [⟨0, 5⟩, ⟨0, 7⟩]).1 (by decide)⟩

/-! ## C9 — validation window at least the series length -/

/-- Claim C9 as stated is false: with `test_size` equal to the length of the
prepared series, `validate_model` does not raise `InsufficientDataError`
(no such class exists in the repository); the empty training slice makes the
internal Prophet `fit` raise, the blanket `except` swallows it, and the call
returns the empty dict `{}` (modelled `none`) normally. -/
theorem validate_model_full_window_returns_empty_dict :
    validate_model twoPointState 2 (fun _ => 1) = none := by
  decide

/-- C9 (amended): whenever `test_size` is at least the length of the stored
training series, the training slice `[:-test_size]` is empty, the internal
`Prophet` fit fails, and `validate_model` returns the empty dict `{}`
(modelled `none`) instead of raising. -/
theorem validate_model_full_window (st : ForecasterState) (td : Series)
    (test_size : ℕ) (predictFn : ℤ → ℚ) (htd : st.training_data = some td)
    (hlen : td.length ≤ test_size) :
    validate_model st test_size predictFn = none := by
  unfold validate_model
  rw [htd]
  cases hm : st.model with
  | none => rfl
  | some m =>
    have htrain : trainSlice td test_size = [] := by
      unfold trainSlice
      split
      · rfl
      · have : td.length - test_size = 0 := Nat.sub_eq_zero_of_le hlen
        rw [this, List.take_zero]
    simp only [htrain]
    rfl

/-- Witness for the amended C9 theorem: a fitted two-point forecaster
validated with `test_size = 2`. -/
theorem validate_model_full_window_witness :
    twoPointState.training_data = some [(0, 1), (1, 2)] ∧
      ([((0 : ℤ), (1 : ℚ)), (1, 2)] : Series).length ≤ 2 ∧
      validate_model twoPointState 2 (fun _ => 1) = none :=
  ⟨rfl, by decide,
    validate_model_full_window twoPointState [(0, 1), (1, 2)] 2 (fun _ => 1) rfl
      (by decide)⟩

/-! ## C10 — `train_model` failure atomicity -/

/-- Claim C10 as stated is false in its atomicity description: when the fit
fails after data preparation, `self.model` does *not* keep its previous
value — the assignment `self.model = Prophet(...)` has already replaced it
with the freshly constructed (unfitted) instance.  Here the previous state
held a fitted model, and training on a one-record input both overwrites
`training_data` and replaces `model` with the new unfitted instance. -/
theorem train_model_failure_replaces_model :
    train_model twoPointState [⟨5, 9⟩] =
        (false, ⟨some ⟨none⟩, some [(5, 9)], none⟩) ∧
      (train_model twoPointState [⟨5, 9⟩]).2.model ≠ twoPointState.model := by
  decide

/-- C10 (amended): `train_model` is total, returning `True` on success and
`False` on internal failure, but its failure behaviour splits by where the
failure occurs.  If the fit fails *after* a successful data preparation
(a nonempty input whose prepared series has fewer than 2 rows), the returned
state holds the newly prepared series in `training_data` *and* the newly
constructed, unfitted Prophet instance in `model` — the previous model is
lost.  If preparation itself fails (the empty input: `KeyError` before
either assignment), both attributes keep their previous values. -/
theorem train_model_failure_state (st : ForecasterState)
    (historical_data : List HistRecord)
    (hfail : (prepare_data historical_data).length < 2) :
    train_model st historical_data =
      (false,
        if historical_data.isEmpty then st
        else
          { st with
              training_data := some (prepare_data historical_data)
              model := some ⟨none⟩ }) := by
  cases historical_data with
  | nil => rfl
  | cons a t =>
    have hchecked : prepare_data_checked (a :: t) =
        .ok (prepare_data (a :: t)) := rfl
    simp only [train_model, hchecked, Prophet.fit, if_pos hfail,
      List.isEmpty_cons, Bool.false_eq_true, if_false]

/-- Witness for the amended C10 theorem at a one-record input. -/
theorem train_model_failure_state_witness :
    (prepare_data [⟨5, 9⟩]).length < 2 ∧
      train_model twoPointState [⟨5, 9⟩] =
        (false,
          if ([⟨5, 9⟩] : List HistRecord).isEmpty then twoPointState
          else
            { twoPointState with
                training_data := some (prepare_data [⟨5, 9⟩])
                model := some ⟨none⟩ }) :=
  ⟨by decide, train_model_failure_state twoPointState [⟨5, 9⟩] (by decide)⟩

/-! ### Propagation of non-finite values through the numpy operations -/

theorem npAdd_not_finite_left (a b : NpVal) (h : a.isFinite = false) :
    (npAdd a b).isFinite = false := by
  cases a <;> cases b <;> simp_all [npAdd, NpVal.isFinite]

theorem npAdd_not_finite_right (a b : NpVal) (h : b.isFinite = false) :
    (npAdd a b).isFinite = false := by
  cases a <;> cases b <;> simp_all [npAdd, NpVal.isFinite]

theorem foldl_npAdd_not_finite (l : List NpVal) (a : NpVal)
    (h : a.isFinite = false) : (l.foldl npAdd a).isFinite = false := by
  induction l generalizing a with
  | nil => exact h
  | cons x t ih => exact ih (npAdd a x) (npAdd_not_finite_left a x h)

theorem foldl_npAdd_mem_not_finite :
    ∀ (l : List NpVal) (a x : NpVal), x ∈ l → x.isFinite = false →
      (l.foldl npAdd a).isFinite = false
  | [], _, _, hx, _ => by cases hx
  | y :: t, a, x, hx, h => by
    rcases List.mem_cons.mp hx with rfl | hmem
    · exact foldl_npAdd_not_finite t (npAdd a x) (npAdd_not_finite_right a x h)
    · exact foldl_npAdd_mem_not_finite t (npAdd a y) x hmem h

theorem npDivNat_not_finite (v : NpVal) (n : ℕ) (h : v.isFinite = false) :
    (npDivNat v n).isFinite = false := by
  cases v <;> simp_all [npDivNat, NpVal.isFinite]

theorem npMean_mem_not_finite (l : List NpVal) (x : NpVal) (hx : x ∈ l)
    (h : x.isFinite = false) : (npMean l).isFinite = false := by
  cases l with
  | nil => cases hx
  | cons y t =>
    exact npDivNat_not_finite _ _ (foldl_npAdd_mem_not_finite _ _ _ hx h)

theorem isFinite_npAbs (v : NpVal) : (npAbs v).isFinite = v.isFinite := by
  cases v <;> rfl

theorem isFinite_npMul100 (v : NpVal) : (npMul100 v).isFinite = v.isFinite := by
  cases v <;> rfl

theorem isFinite_round2Np (v : NpVal) : (round2Np v).isFinite = v.isFinite := by
  cases v <;> rfl

theorem npDivFin_zero_not_finite (a : ℚ) : (npDivFin a 0).isFinite = false := by
  unfold npDivFin
  rw [if_pos rfl]
  split_ifs <;> rfl

theorem npDivFin_ne_zero (a b : ℚ) (h : b ≠ 0) : npDivFin a b = .fin (a / b) := by
  unfold npDivFin
  rw [if_neg h]

/-- In the pointwise array `np.abs((y_true - y_pred) / y_true)`, any zero
entry of `y_true` contributes a non-finite element. -/
theorem zipWith_mape_zero_not_finite (ys ps : List ℚ)
    (hlen : ys.length ≤ ps.length) (h0 : (0 : ℚ) ∈ ys) :
    ∃ v ∈ List.zipWith (fun t p => npAbs (npDivFin (t - p) t)) ys ps,
      v.isFinite = false := by
  induction ys generalizing ps with
  | nil => cases h0
  | cons y t ih =>
    cases ps with
    | nil => simp at hlen
    | cons p q =>
      rcases List.mem_cons.mp h0 with rfl | hmem
      · refine ⟨npAbs (npDivFin (0 - p) 0), List.mem_cons_self _ _, ?_⟩
        rw [isFinite_npAbs]
        exact npDivFin_zero_not_finite _
      · obtain ⟨v, hv, hfin⟩ := ih q (Nat.le_of_succ_le_succ hlen) hmem
        exact ⟨v, List.mem_cons_of_mem _ hv, hfin⟩

/-- A zero entry of `y_true` makes the computed MAPE non-finite. -/
theorem computeMape_zero_not_finite (y_true y_pred : List ℚ)
    (hlen : y_true.length ≤ y_pred.length) (h0 : (0 : ℚ) ∈ y_true) :
    (computeMape y_true y_pred).isFinite = false := by
  obtain ⟨v, hv, hfin⟩ := zipWith_mape_zero_not_finite y_true y_pred hlen h0
  unfold computeMape
  rw [isFinite_round2Np, isFinite_npMul100]
  exact npMean_mem_not_finite _ v hv hfin

/-! ## C4 — MAPE on zero-valued held-out observations -/

/-- Claim C4 as stated is false: the MAPE computation
(`np.mean(np.abs((y_true - y_pred) / y_true)) * 100`, forecaster.py:222)
contains no guard for zero true values.  On the series
`(0, 4), (1, 6), (2, 0)` with a one-point test window the single held-out
true value is `0`, numpy divides by zero, and the reported MAPE is `inf`. -/
theorem validate_model_mape_inf :
    (validate_model zeroTailState 1 fun _ => 1).map (·.mape) =
      some .posInf := by
  norm_num [validate_model, zeroTailState, trainSlice, testSlice, Prophet.fit,
    computeMape, npDivFin, npAbs, npMean, npSum, npDivNat, npMul100, round2Np,
    npAdd]

/-- C4 (amended): validation does *not* exclude zero-valued held-out points
from the MAPE denominator; whenever the held-out window contains a true value
`0` and validation returns metrics, the reported MAPE is non-finite
(`inf` or `nan`).  No exception is raised either way. -/
theorem validate_model_mape_not_finite (st : ForecasterState) (td : Series)
    (test_size : ℕ) (predictFn : ℤ → ℚ) (htd : st.training_data = some td)
    (h0 : (0 : ℚ) ∈ (testSlice td test_size).map (·.2)) :
    ∀ m, validate_model st test_size predictFn = some m →
      m.mape.isFinite = false := by
  intro m hm
  unfold validate_model at hm
  rw [htd] at hm
  cases hmod : st.model with
  | none => rw [hmod] at hm; cases hm
  | some pm =>
    rw [hmod] at hm
    cases hfit : Prophet.fit (trainSlice td test_size) with
    | error e => simp only [hfit] at hm; cases hm
    | ok fm =>
      simp only [hfit] at hm
      cases hm
      exact computeMape_zero_not_finite _ _ (by simp) h0

/-- Witness for the amended C4 theorem on the zero-tailed three-point
series. -/
theorem validate_model_mape_not_finite_witness :
    zeroTailState.training_data = some [(0, 4), (1, 6), (2, 0)] ∧
      (0 : ℚ) ∈ (testSlice [(0, 4), (1, 6), (2, 0)] 1).map (·.2) ∧
      ∀ m, validate_model zeroTailState 1 (fun _ => 1) = some m →
        m.mape.isFinite = false :=
  ⟨rfl, by decide,
    validate_model_mape_not_finite zeroTailState [(0, 4), (1, 6), (2, 0)] 1
      (fun _ => 1) rfl (by decide)⟩

/-! ### Characterisation of `generate_forecast` -/

/-- Abbreviation for the future slice
`forecast[forecast['ds'] > last_historical_date]`. -/
def futureSlice (hist td : Series) (f : PredictFun) (days_ahead : ℕ) :
    List ForecastRow :=
  (forecastFrame hist f days_ahead).filter fun r => dsMax (td.map (·.1)) < r.ds

/-- The dict assembled on the success path of `generate_forecast`, written
out once. -/
def resultDict (hist td : Series) (f : PredictFun) (d : ℕ) (lastRow : ℤ × ℚ) :
    ForecastResultDict :=
  { forecast_horizon := d
    current_vehicles := pyInt lastRow.2
    current_date := dsMax (td.map (·.1))
    predictions := (futureSlice hist td f d).map fun w =>
      ⟨w.ds, pyInt w.yhat, pyInt w.yhat_lower, pyInt w.yhat_upper, 9/10⟩
    growth_30 := mkGrowthEntry
      (pyIloc (futureSlice hist td f d)
        (min 29 ((futureSlice hist td f d).length - 1))) lastRow.2
    growth_90 := mkGrowthEntry
      (pyIloc (futureSlice hist td f d)
        (min 89 ((futureSlice hist td f d).length - 1))) lastRow.2
    growth_180 := mkGrowthEntry
      (if 180 ≤ (futureSlice hist td f d).length then
        pyIloc (futureSlice hist td f d) 179
      else pyIloc (futureSlice hist td f d)
        ((futureSlice hist td f d).length - 1)) lastRow.2
    avg_daily_growth := pyInt
      (((pyIloc (futureSlice hist td f d)
          (min 89 ((futureSlice hist td f d).length - 1))).yhat -
        lastRow.2) / 90) }

/-- When the future slice is nonempty, `generate_forecast` succeeds and
returns exactly the assembled dict. -/
theorem generate_forecast_success (st : ForecasterState) (f : PredictFun)
    (d : ℕ) (m : ProphetModel) (hist td : Series) (lastRow : ℤ × ℚ)
    (hm : st.model = some m) (hh : m.history = some hist)
    (htd : st.training_data = some td) (hlast : td.getLast? = some lastRow)
    (hne : (futureSlice hist td f d).isEmpty = false) :
    (generate_forecast st f d).1 = some (resultDict hist td f d lastRow) := by
  simp only [generate_forecast, hm, hh, htd, hlast]
  split
  · next hcond =>
    rw [show ((forecastFrame hist f d).filter fun w =>
        dsMax (td.map (·.1)) < w.ds) = futureSlice hist td f d from rfl]
        at hcond
    rw [hcond] at hne
    exact Bool.noConfusion hne
  · rfl

/-- On the success path, the result dict of `generate_forecast` is built from
the future slice and the last training row exactly as in the source. -/
theorem generate_forecast_fst_eq_some (st : ForecasterState) (f : PredictFun)
    (d : ℕ) (r : ForecastResultDict) (m : ProphetModel) (hist td : Series)
    (lastRow : ℤ × ℚ) (hm : st.model = some m) (hh : m.history = some hist)
    (htd : st.training_data = some td) (hlast : td.getLast? = some lastRow)
    (hr : (generate_forecast st f d).1 = some r) :
    (futureSlice hist td f d).isEmpty = false ∧
      r = { forecast_horizon := d
            current_vehicles := pyInt lastRow.2
            current_date := dsMax (td.map (·.1))
            predictions := (futureSlice hist td f d).map fun w =>
              ⟨w.ds, pyInt w.yhat, pyInt w.yhat_lower, pyInt w.yhat_upper, 9/10⟩
            growth_30 := mkGrowthEntry
              (pyIloc (futureSlice hist td f d)
                (min 29 ((futureSlice hist td f d).length - 1))) lastRow.2
            growth_90 := mkGrowthEntry
              (pyIloc (futureSlice hist td f d)
                (min 89 ((futureSlice hist td f d).length - 1))) lastRow.2
            growth_180 := mkGrowthEntry
              (if 180 ≤ (futureSlice hist td f d).length then
                pyIloc (futureSlice hist td f d) 179
              else pyIloc (futureSlice hist td f d)
                ((futureSlice hist td f d).length - 1)) lastRow.2
            avg_daily_growth := pyInt
              (((pyIloc (futureSlice hist td f d)
                  (min 89 ((futureSlice hist td f d).length - 1))).yhat -
                lastRow.2) / 90) } := by
  simp only [generate_forecast, hm, hh, htd, hlast] at hr
  rw [show ((forecastFrame hist f d).filter fun w => dsMax (td.map (·.1)) < w.ds)
      = futureSlice hist td f d from rfl] at hr
  split at hr
  · cases hr
  · next hempty =>
    refine ⟨Bool.of_not_eq_true hempty, ?_⟩
    exact (Option.some.inj hr).symm

/-- `generate_forecast` stores the freshly computed full forecast frame in
`self.forecast_result` whenever the model guard and
`make_future_dataframe` succeed, regardless of later failures. -/
theorem generate_forecast_snd (st : ForecasterState) (f : PredictFun) (d : ℕ)
    (m : ProphetModel) (hist : Series) (hm : st.model = some m)
    (hh : m.history = some hist) :
    (generate_forecast st f d).2 =
      { st with forecast_result := some (forecastFrame hist f d) } := by
  simp only [generate_forecast, hm, hh]
  split
  · rfl
  · split
    · rfl
    · split <;> rfl

/-! ## C5 — milestone growth percentage at a zero last observation -/

/-- Claim C5 as stated is false: with the last observed value `0`, the
milestone growth percentage is not the fallback `0` — the numpy division
`(yhat - 0) / 0` yields `inf` (here `yhat = 5`), which `round` passes
through, so the reported percentage is infinite. -/
theorem milestone_growth_zero_gives_inf :
    ((generate_forecast zeroLastState constFivePredict 30).1).map
        (·.growth_30.growth_percentage) = some .posInf := by
  norm_num [generate_forecast, zeroLastState, constFivePredict, forecastFrame,
    Prophet.predict, make_future_dataframe, uniqueSorted, dsMax, mkGrowthEntry,
    npDivFin, npMul100, round2Np, pyIloc, List.filter, List.range_succ]

/-- C5 (amended): every milestone growth percentage is computed as
`round(((yhat - last_observed) / last_observed) * 100, 2)` under numpy
division; when `last_observed = 0` the result is a non-finite value
(`±inf`, or `nan` when `yhat` is also `0`) rather than the claimed fallback
`0` — though no exception is raised; when `last_observed ≠ 0` the result is
the finite rounded percentage. -/
theorem generate_forecast_growth_percentage (st : ForecasterState)
    (f : PredictFun) (days_ahead : ℕ) (m : ProphetModel) (hist td : Series)
    (lastRow : ℤ × ℚ) (hm : st.model = some m) (hh : m.history = some hist)
    (htd : st.training_data = some td) (hlast : td.getLast? = some lastRow) :
    ∀ r, (generate_forecast st f days_ahead).1 = some r →
      (∃ e30 e90 e180 : ForecastRow,
          r.growth_30 = mkGrowthEntry e30 lastRow.2 ∧
          r.growth_90 = mkGrowthEntry e90 lastRow.2 ∧
          r.growth_180 = mkGrowthEntry e180 lastRow.2) ∧
      (lastRow.2 = 0 →
        r.growth_30.growth_percentage.isFinite = false ∧
        r.growth_90.growth_percentage.isFinite = false ∧
        r.growth_180.growth_percentage.isFinite = false) ∧
      (lastRow.2 ≠ 0 →
        r.growth_30.growth_percentage.isFinite = true ∧
        r.growth_90.growth_percentage.isFinite = true ∧
        r.growth_180.growth_percentage.isFinite = true) := by
  intro r hr
  obtain ⟨-, hreq⟩ :=
    generate_forecast_fst_eq_some st f days_ahead r m hist td lastRow hm hh htd
      hlast hr
  subst hreq
  have hfin : ∀ (w : ForecastRow) (l : ℚ),
      (mkGrowthEntry w l).growth_percentage.isFinite = (l ≠ 0 : Bool) := by
    intro w l
    by_cases hl : l = 0
    · subst hl
      simp only [mkGrowthEntry, isFinite_round2Np, isFinite_npMul100]
      simp [npDivFin_zero_not_finite]
    · simp only [mkGrowthEntry, isFinite_round2Np, isFinite_npMul100,
        npDivFin_ne_zero _ _ hl]
      simp [NpVal.isFinite, hl]
  refine ⟨⟨_, _, _, rfl, rfl, rfl⟩, ?_, ?_⟩
  · intro h0
    simp [hfin, h0]
  · intro h0
    simp [hfin, h0]

/-- Witness for the amended C5 theorem: the fitted series ends in the value
`0`, the 30-day forecast succeeds, and each milestone percentage is
non-finite. -/
theorem generate_forecast_growth_percentage_witness :
    zeroLastState.model = some ⟨some [(0, 3), (1, 0)]⟩ ∧
      zeroLastState.training_data = some [(0, 3), (1, 0)] ∧
      ([((0 : ℤ), (3 : ℚ)), (1, 0)] : Series).getLast? = some (1, 0) ∧
      (∀ r, (generate_forecast zeroLastState constFivePredict 30).1 = some r →
        (∃ e30 e90 e180 : ForecastRow,
            r.growth_30 = mkGrowthEntry e30 (((1 : ℤ), (0 : ℚ)) : ℤ × ℚ).2 ∧
            r.growth_90 = mkGrowthEntry e90 (((1 : ℤ), (0 : ℚ)) : ℤ × ℚ).2 ∧
            r.growth_180 = mkGrowthEntry e180 (((1 : ℤ), (0 : ℚ)) : ℤ × ℚ).2) ∧
        ((((1 : ℤ), (0 : ℚ)) : ℤ × ℚ).2 = 0 →
          r.growth_30.growth_percentage.isFinite = false ∧
          r.growth_90.growth_percentage.isFinite = false ∧
          r.growth_180.growth_percentage.isFinite = false) ∧
        ((((1 : ℤ), (0 : ℚ)) : ℤ × ℚ).2 ≠ 0 →
          r.growth_30.growth_percentage.isFinite = true ∧
          r.growth_90.growth_percentage.isFinite = true ∧
          r.growth_180.growth_percentage.isFinite = true)) :=
  ⟨rfl, rfl, rfl,
    generate_forecast_growth_percentage zeroLastState constFivePredict 30
      ⟨some [(0, 3), (1, 0)]⟩ [(0, 3), (1, 0)] [(0, 3), (1, 0)] (1, 0) rfl rfl
      rfl rfl⟩

/-! ## C3 — forecast horizon, count and dates -/

theorem le_foldl_max (l : List ℤ) (a : ℤ) : a ≤ l.foldl max a := by
  induction l generalizing a with
  | nil => exact le_refl a
  | cons x t ih => exact le_trans (le_max_left a x) (ih (max a x))

theorem mem_le_foldl_max :
    ∀ (l : List ℤ) (a x : ℤ), x ∈ l → x ≤ l.foldl max a
  | [], _, _, h => by cases h
  | y :: t, a, x, h => by
    rcases List.mem_cons.mp h with rfl | hmem
    · exact le_trans (le_max_right a x) (le_foldl_max t (max a x))
    · exact mem_le_foldl_max t (max a y) x hmem

/-- Every date of a series is at most `dsMax` of it. -/
theorem le_dsMax (l : List ℤ) (x : ℤ) (h : x ∈ l) : x ≤ dsMax l :=
  mem_le_foldl_max l (l.headD 0) x h

theorem mem_uniqueSorted (l : List ℤ) (x : ℤ) :
    x ∈ uniqueSorted l ↔ x ∈ l :=
  List.mem_dedup.trans (List.mem_insertionSort (· ≤ ·))

/-- Rows built over dates not exceeding the cutoff are all dropped by the
future filter. -/
theorem filter_rows_le_cutoff (f : PredictFun) (c : ℤ) (L : List ℤ)
    (hL : ∀ x ∈ L, x ≤ c) :
    ((L.map fun ds =>
        (⟨ds, f.yhat ds, f.yhat_lower ds, f.yhat_upper ds, f.trend ds⟩ :
          ForecastRow)).filter fun r => c < r.ds) = [] := by
  rw [List.filter_eq_nil_iff]
  intro r hr
  obtain ⟨ds, hds, rfl⟩ := List.mem_map.mp hr
  simp only [decide_eq_true_eq]
  exact not_lt.mpr (hL ds hds)

/-- Rows built over dates beyond the cutoff are all kept by the future
filter. -/
theorem filter_rows_gt_cutoff (f : PredictFun) (c : ℤ) (L : List ℤ)
    (hL : ∀ x ∈ L, c < x) :
    ((L.map fun ds =>
        (⟨ds, f.yhat ds, f.yhat_lower ds, f.yhat_upper ds, f.trend ds⟩ :
          ForecastRow)).filter fun r => c < r.ds) =
      L.map fun ds =>
        ⟨ds, f.yhat ds, f.yhat_lower ds, f.yhat_upper ds, f.trend ds⟩ := by
  rw [List.filter_eq_self]
  intro r hr
  obtain ⟨ds, hds, rfl⟩ := List.mem_map.mp hr
  simp only [decide_eq_true_eq]
  exact hL ds hds

theorem futureSlice_self (td : Series) (f : PredictFun) (d : ℕ) :
    futureSlice td td f d = ((List.range d).map fun i : ℕ =>
      dsMax (td.map (·.1)) + 1 + (i : ℤ)).map fun ds =>
        ⟨ds, f.yhat ds, f.yhat_lower ds, f.yhat_upper ds, f.trend ds⟩ := by
  unfold futureSlice forecastFrame Prophet.predict make_future_dataframe
  rw [List.map_append, List.filter_append]
  rw [filter_rows_le_cutoff f _ _ fun x hx =>
    le_dsMax _ _ ((mem_uniqueSorted _ _).mp hx)]
  rw [filter_rows_gt_cutoff f _ _ ?hgt, List.nil_append]
  case hgt =>
    intro x hx
    obtain ⟨i, _, rfl⟩ := List.mem_map.mp hx
    omega

/-- C3 (confirmed): after a successful `train_model` on any records, the
`h`-day forecast succeeds (for `h ≥ 1`) and its `predictions` list holds
exactly `h` points whose dates are the consecutive calendar days starting
immediately after the last observed date, hence strictly increasing. -/
theorem generate_forecast_dates (st : ForecasterState)
    (records : List HistRecord) (f : PredictFun) (h : ℕ) (hpos : 1 ≤ h)
    (hfit : (train_model st records).1 = true) :
    ∃ r, (generate_forecast (train_model st records).2 f h).1 = some r ∧
      r.predictions.length = h ∧
      r.predictions.map (·.date) = (List.range h).map
        (fun i : ℕ => dsMax ((prepare_data records).map (·.1)) + 1 + (i : ℤ)) ∧
      (r.predictions.map (·.date)).Pairwise (· < ·) ∧
      r.predictions.head?.map (·.date) =
        some (dsMax ((prepare_data records).map (·.1)) + 1) := by
  obtain ⟨n, rfl⟩ : ∃ n, h = n + 1 := ⟨h - 1, by omega⟩
  have hrecne : records ≠ [] := by
    intro hnil
    rw [hnil] at hfit
    simp [train_model, prepare_data_checked] at hfit
  have hchecked : prepare_data_checked records = .ok (prepare_data records) := by
    cases records with
    | nil => exact absurd rfl hrecne
    | cons a t => rfl
  set td := prepare_data records with htd_def
  by_cases hlen : td.length < 2
  · exfalso
    simp only [train_model, hchecked, Prophet.fit] at hfit
    rw [if_pos hlen] at hfit
    simp at hfit
  have hfit_eq : Prophet.fit td = .ok ⟨some td⟩ := by
    unfold Prophet.fit
    rw [if_neg hlen]
  have hst : train_model st records =
      (true, { st with training_data := some td, model := some ⟨some td⟩ }) := by
    simp only [train_model, hchecked]
    rw [hfit_eq]
  have htdne : td ≠ [] := by
    intro hnil
    rw [hnil] at hlen
    exact hlen (by decide)
  obtain ⟨lastRow, hlast⟩ :=
    Option.isSome_iff_exists.mp (List.getLast?_isSome.mpr htdne)
  have hslice := futureSlice_self td f (n + 1)
  have hne : (futureSlice td td f (n + 1)).isEmpty = false := by
    rw [hslice, List.range_succ_eq_map]
    rfl
  have hm : (train_model st records).2.model = some (⟨some td⟩ : ProphetModel) := by
    rw [hst]
  have hh : (⟨some td⟩ : ProphetModel).history = some td := rfl
  have htd2 : (train_model st records).2.training_data = some td := by
    rw [hst]
  have hfst := generate_forecast_success (train_model st records).2 f (n + 1)
    ⟨some td⟩ td td lastRow hm hh htd2 hlast hne
  refine ⟨_, hfst, ?_, ?_, ?_, ?_⟩
  · simp [resultDict, hslice]
  · simp only [resultDict, hslice, List.map_map]
    rfl
  · simp only [resultDict, hslice, List.map_map]
    refine List.Pairwise.map _ ?_ (List.pairwise_lt_range (n + 1))
    intro a b hab
    simp only [Function.comp]
    omega
  · simp only [resultDict, hslice, List.map_map, List.range_succ_eq_map]
    simp [List.head?_map]

/-- Witness for C3 on a concrete two-point series and a three-day horizon. -/
theorem generate_forecast_dates_witness :
    1 ≤ 3 ∧ (train_model initialState [⟨0, 1⟩, ⟨1, 2⟩]).1 = true ∧
      (∃ r,
        (generate_forecast (train_model initialState [⟨0, 1⟩, ⟨1, 2⟩]).2
            zeroPredict 3).1 = some r ∧
        r.predictions.length = 3 ∧
        r.predictions.map (·.date) = (List.range 3).map
          (fun i : ℕ =>
            dsMax ((prepare_data [⟨0, 1⟩, ⟨1, 2⟩]).map (·.1)) + 1 + (i : ℤ)) ∧
        (r.predictions.map (·.date)).Pairwise (· < ·) ∧
        r.predictions.head?.map (·.date) =
          some (dsMax ((prepare_data [⟨0, 1⟩, ⟨1, 2⟩]).map (·.1)) + 1)) :=
  ⟨by decide, by decide,
    generate_forecast_dates initialState [⟨0, 1⟩, ⟨1, 2⟩] zeroPredict 3
      (by decide) (by decide)⟩

/-! ## C2 — which windows the trend analysis averages over -/

/-- The claim's recent-window average, following the spec's words: the mean
day-over-day change of the fitted trend curve over the most recent 30
*observed* points.  Kept separate from the code-side `trendAnalysisOf` for
the refinement comparison. -/
def specRecentWindowAvg (observedCurve : List ℚ) : Option ℚ :=
  meanOpt (tailN 30 (dailyChanges observedCurve))

/-- The claim's historical-window average, following the spec's words: the
mean day-over-day change over the earliest 30 observed points. -/
def specHistoricalWindowAvg (observedCurve : List ℚ) : Option ℚ :=
  meanOpt ((dailyChanges observedCurve).take 30)

/-- The claim's direction classification over the observed trend curve. -/
def specTrendDirection (observedCurve : List ℚ) : String :=
  if optGt (specRecentWindowAvg observedCurve)
      (specHistoricalWindowAvg observedCurve)
  then "accelerating" else "decelerating"

/-- Dropping to the last 30 daily changes ignores one leading point once more
than 30 points follow it. -/
theorem tailN_dailyChanges_cons (x : ℚ) (l : List ℚ) (hl : 31 ≤ l.length) :
    tailN 30 (dailyChanges (x :: l)) = tailN 30 (dailyChanges l) := by
  obtain ⟨y, t, rfl⟩ : ∃ y t, l = y :: t := by
    cases l with
    | nil => simp at hl
    | cons y t => exact ⟨y, t, rfl⟩
  have ht : 30 ≤ t.length := by
    simp only [List.length_cons] at hl
    omega
  have hdc : ∀ (z : ℚ) (zs : List ℚ), dailyChanges (z :: zs) =
      none :: List.zipWith (fun b a => some (b - a)) zs (z :: zs) :=
    fun _ _ => rfl
  rw [hdc x (y :: t), hdc y t, List.zipWith_cons_cons]
  unfold tailN
  simp only [List.length_cons, List.length_zipWith]
  have hmin : min t.length (t.length + 1) = t.length := by omega
  rw [hmin]
  have e1 : t.length + 1 + 1 - 30 = (t.length - 30) + 2 := by omega
  have e2 : t.length + 1 - 30 = (t.length - 30) + 1 := by omega
  rw [e1, e2, List.drop_succ_cons, List.drop_succ_cons, List.drop_succ_cons]

/-- The last-30-changes window of a concatenated curve is computed entirely
from the second part once that part has more than 30 points. -/
theorem tailN_dailyChanges_append (xs ys : List ℚ) (hy : 31 ≤ ys.length) :
    tailN 30 (dailyChanges (xs ++ ys)) = tailN 30 (dailyChanges ys) := by
  induction xs with
  | nil => rfl
  | cons x t ih =>
    rw [List.cons_append, tailN_dailyChanges_cons x (t ++ ys)
      (by simp only [List.length_append]; omega), ih]

/-- The first-30-changes window of a concatenated curve is computed entirely
from the first part once that part has at least 30 points. -/
theorem take30_dailyChanges_append (xs ys : List ℚ) (hx : 30 ≤ xs.length) :
    (dailyChanges (xs ++ ys)).take 30 = (dailyChanges xs).take 30 := by
  obtain ⟨x, t, rfl⟩ : ∃ x t, xs = x :: t := by
    cases xs with
    | nil => simp at hx
    | cons x t => exact ⟨x, t, rfl⟩
  have ht : 29 ≤ t.length := by
    simp only [List.length_cons] at hx
    omega
  show (none :: List.zipWith (fun b a => some (b - a)) (t ++ ys)
      (x :: (t ++ ys))).take 30 =
    (none :: List.zipWith (fun b a => some (b - a)) t (x :: t)).take 30
  rw [List.take_succ_cons, List.take_succ_cons]
  congr 1
  rw [List.take_zipWith, List.take_zipWith,
    List.take_append_of_le_length ht, List.take_succ_cons, List.take_succ_cons,
    List.take_append_of_le_length (by omega)]

/-- A predict function whose trend column is flat (`0`) on the observed dates
`0, 1` and then climbs by one per day. -/
def ceTrendFun : PredictFun :=
  ⟨fun _ => 0, fun _ => 0, fun _ => 0,
    fun d => if d ≤ 1 then 0 else ((d - 1 : ℤ) : ℚ)⟩

/-- The trend column of the stored forecast frame for `ceTrendFun` after
fitting `(0, 1), (1, 2)` and forecasting 30 days: 2 observed rows, then the
30-day horizon. -/
def ceTrendCurve : List ℚ :=
  [0, 0, 1, 2, 3, 4, 5, 6, 7, 8, 9, 10, 11, 12, 13, 14, 15, 16, 17, 18, 19,
    20, 21, 22, 23, 24, 25, 26, 27, 28, 29, 30]

/-- Claim C2 as stated is false: the code's `trend.tail(30)` window ranges
over the last 30 rows of the *full* forecast frame — here entirely
forecast-horizon rows — not over observed points.  With a trend flat on the
two observed days and climbing over the horizon, the code reports
`accelerating`, while the claim's observed-points windows (flat curve) give
`decelerating`. -/
theorem trend_direction_uses_forecast_horizon :
    (get_trend_analysis
          (generate_forecast (train_model initialState [⟨0, 1⟩, ⟨1, 2⟩]).2
            ceTrendFun 30).2).map (·.trend_direction) = some "accelerating" ∧
      specTrendDirection ((uniqueSorted
          ((prepare_data [⟨0, 1⟩, ⟨1, 2⟩]).map (·.1))).map ceTrendFun.trend) =
        "decelerating" := by
  constructor
  · have hmap : ((generate_forecast (train_model initialState
          [⟨0, 1⟩, ⟨1, 2⟩]).2 ceTrendFun 30).2.forecast_result).map
          (List.map (·.trend)) = some ceTrendCurve := by decide
    cases hres : (generate_forecast (train_model initialState
        [⟨0, 1⟩, ⟨1, 2⟩]).2 ceTrendFun 30).2.forecast_result with
    | none => rw [hres] at hmap; cases hmap
    | some fr =>
      rw [hres] at hmap
      have htr : fr.map (·.trend) = ceTrendCurve := Option.some.inj hmap
      rw [get_trend_analysis, hres, Option.map_some']
      have hdir : (trendAnalysisOf fr).trend_direction = "accelerating" := by
        unfold trendAnalysisOf
        rw [htr]
        norm_num [ceTrendCurve, dailyChanges, meanOpt, tailN, optGt,
          List.filterMap_cons, id_eq, List.sum_cons, List.sum_nil]
      rw [Option.map_some', hdir]
  · have hobs : (uniqueSorted ((prepare_data [⟨0, 1⟩, ⟨1, 2⟩]).map
        (·.1))).map ceTrendFun.trend = [0, 0] := by decide
    rw [hobs]
    norm_num [specTrendDirection, specRecentWindowAvg, specHistoricalWindowAvg,
      dailyChanges, meanOpt, tailN, optGt, List.filterMap_cons, id_eq,
      List.sum_cons, List.sum_nil]

/-- C2 (amended): after a successful fit and a forecast with horizon
`h ≥ 31` over a series with at least 31 distinct observed dates, the stored
trend analysis averages the day-over-day trend changes over the most recent
30 rows of the full forecast frame — which lie entirely in the forecast
horizon, not among observed points — for `recent_30day_trend`, over the
earliest 30 frame rows (observed points) for `historical_30day_trend`, and
classifies `accelerating` exactly when the recent mean exceeds the
historical mean. -/
theorem get_trend_analysis_windows (st : ForecasterState)
    (records : List HistRecord) (f : PredictFun) (h : ℕ)
    (hfit : (train_model st records).1 = true) (h31 : 31 ≤ h)
    (hobs : 31 ≤ (uniqueSorted ((prepare_data records).map (·.1))).length) :
    ∃ A, get_trend_analysis
        (generate_forecast (train_model st records).2 f h).2 = some A ∧
      A.recent_30day_trend = (meanOpt (tailN 30 (dailyChanges
        (((List.range h).map fun i : ℕ =>
          dsMax ((prepare_data records).map (·.1)) + 1 + (i : ℤ)).map
            f.trend)))).map round2 ∧
      A.historical_30day_trend = (meanOpt ((dailyChanges
        ((uniqueSorted ((prepare_data records).map (·.1))).map
          f.trend)).take 30)).map round2 ∧
      (A.trend_direction = "accelerating" ↔
        optGt
          (meanOpt (tailN 30 (dailyChanges
            (((List.range h).map fun i : ℕ =>
              dsMax ((prepare_data records).map (·.1)) + 1 + (i : ℤ)).map
                f.trend))))
          (meanOpt ((dailyChanges
            ((uniqueSorted ((prepare_data records).map (·.1))).map
              f.trend)).take 30)) = true) := by
  have hrecne : records ≠ [] := by
    intro hnil
    rw [hnil] at hfit
    simp [train_model, prepare_data_checked] at hfit
  have hchecked : prepare_data_checked records = .ok (prepare_data records) := by
    cases records with
    | nil => exact absurd rfl hrecne
    | cons a t => rfl
  set td := prepare_data records with htd_def
  by_cases hlen : td.length < 2
  · exfalso
    simp only [train_model, hchecked, Prophet.fit] at hfit
    rw [if_pos hlen] at hfit
    simp at hfit
  have hfit_eq : Prophet.fit td = .ok ⟨some td⟩ := by
    unfold Prophet.fit
    rw [if_neg hlen]
  have hst : train_model st records =
      (true, { st with training_data := some td, model := some ⟨some td⟩ }) := by
    simp only [train_model, hchecked]
    rw [hfit_eq]
  have hm : (train_model st records).2.model = some (⟨some td⟩ : ProphetModel) := by
    rw [hst]
  have hsnd := generate_forecast_snd (train_model st records).2 f h
    ⟨some td⟩ td hm rfl
  have hcol : (forecastFrame td f h).map (·.trend) =
      (uniqueSorted (td.map (·.1))).map f.trend ++
        ((List.range h).map fun i : ℕ =>
          dsMax (td.map (·.1)) + 1 + (i : ℤ)).map f.trend := by
    unfold forecastFrame Prophet.predict make_future_dataframe
    rw [List.map_map, List.map_append]
    rfl
  have hfutlen : (((List.range h).map fun i : ℕ =>
      dsMax (td.map (·.1)) + 1 + (i : ℤ)).map f.trend).length = h := by
    simp
  have hobslen : 30 ≤ ((uniqueSorted (td.map (·.1))).map f.trend).length := by
    rw [List.length_map]
    omega
  have hrec := tailN_dailyChanges_append
    ((uniqueSorted (td.map (·.1))).map f.trend)
    (((List.range h).map fun i : ℕ =>
      dsMax (td.map (·.1)) + 1 + (i : ℤ)).map f.trend)
    (by rw [hfutlen]; exact h31)
  have hhist := take30_dailyChanges_append
    ((uniqueSorted (td.map (·.1))).map f.trend)
    (((List.range h).map fun i : ℕ =>
      dsMax (td.map (·.1)) + 1 + (i : ℤ)).map f.trend) hobslen
  refine ⟨trendAnalysisOf (forecastFrame td f h), ?_, ?_, ?_, ?_⟩
  · rw [get_trend_analysis, hsnd]
    rfl
  · simp only [trendAnalysisOf]
    rw [hcol, hrec]
  · simp only [trendAnalysisOf]
    rw [hcol, hhist]
  · simp only [trendAnalysisOf]
    rw [hcol, hrec, hhist]
    cases hb : optGt
        (meanOpt (tailN 30 (dailyChanges
          (((List.range h).map fun i : ℕ =>
            dsMax (td.map (·.1)) + 1 + (i : ℤ)).map f.trend))))
        (meanOpt ((dailyChanges
          ((uniqueSorted (td.map (·.1))).map f.trend)).take 30)) with
    | false => simp [hb]
    | true => simp [hb]

/-- Witness for the amended C2 theorem: 31 observed days, a 31-day horizon. -/
theorem get_trend_analysis_windows_witness :
    (train_model initialState
        ((List.range 31).map fun i : ℕ => (⟨(i : ℤ), 1⟩ : HistRecord))).1 =
          true ∧
      31 ≤ 31 ∧
      31 ≤ (uniqueSorted ((prepare_data
        ((List.range 31).map fun i : ℕ => (⟨(i : ℤ), 1⟩ : HistRecord))).map
          (·.1))).length ∧
      (∃ A, get_trend_analysis
          (generate_forecast (train_model initialState
            ((List.range 31).map fun i : ℕ => (⟨(i : ℤ), 1⟩ : HistRecord))).2
            zeroPredict 31).2 = some A ∧
        A.recent_30day_trend = (meanOpt (tailN 30 (dailyChanges
          (((List.range 31).map fun i : ℕ =>
            dsMax ((prepare_data ((List.range 31).map fun i : ℕ =>
              (⟨(i : ℤ), 1⟩ : HistRecord))).map (·.1)) + 1 + (i : ℤ)).map
                zeroPredict.trend)))).map round2 ∧
        A.historical_30day_trend = (meanOpt ((dailyChanges
          ((uniqueSorted ((prepare_data ((List.range 31).map fun i : ℕ =>
            (⟨(i : ℤ), 1⟩ : HistRecord))).map (·.1))).map
              zeroPredict.trend)).take 30)).map round2 ∧
        (A.trend_direction = "accelerating" ↔
          optGt
            (meanOpt (tailN 30 (dailyChanges
              (((List.range 31).map fun i : ℕ =>
                dsMax ((prepare_data ((List.range 31).map fun i : ℕ =>
                  (⟨(i : ℤ), 1⟩ : HistRecord))).map (·.1)) + 1 + (i : ℤ)).map
                    zeroPredict.trend))))
            (meanOpt ((dailyChanges
              ((uniqueSorted ((prepare_data ((List.range 31).map fun i : ℕ =>
                (⟨(i : ℤ), 1⟩ : HistRecord))).map (·.1))).map
                  zeroPredict.trend)).take 30)) = true)) :=
  ⟨by decide, by decide, by decide,
    get_trend_analysis_windows initialState
      ((List.range 31).map fun i : ℕ => (⟨(i : ℤ), 1⟩ : HistRecord))
      zeroPredict 31 (by decide) (by decide) (by decide)⟩

end ChainIntel
